import Mathlib

/-!
Verification of the CyberEye subdomain-scan reconnaissance pipeline.

This file gives a shallow embedding of the edge function
`supabase/functions/subdomain-scan/index.ts` and proves properties of it.
JavaScript strings are modelled as lists of characters (`Str`), `null`-able
values as `Option`, and network interactions as explicit oracle inputs.
Regular-expression tests from the source are translated to executable
predicates over character lists; the translation notes at each definition
explain why the translation is exact for the pattern in question.
-/

abbrev Str := List Char

/-- JavaScript `a.startsWith(b)` on character lists. -/
def strStartsWith : Str → Str → Bool
  | _, [] => true
  | [], _ :: _ => false
  | c :: s, p :: ps => c == p && strStartsWith s ps

/-- JavaScript `a.endsWith(b)` on character lists. -/
def strEndsWith (s suf : Str) : Bool :=
  strStartsWith s.reverse suf.reverse

/-- JavaScript `a.includes(b)` (substring containment) on character lists. -/
def strContainsSub : Str → Str → Bool
  | [], n => strStartsWith [] n
  | c :: t, n => strStartsWith (c :: t) n || strContainsSub t n

/-- JavaScript `toLowerCase()` (ASCII case fold, as used on domain names). -/
def toLowerStr (s : Str) : Str := s.map Char.toLower

/-- JavaScript `trim()`: drop whitespace from both ends. -/
def trimStr (s : Str) : Str :=
  ((s.dropWhile Char.isWhitespace).reverse.dropWhile Char.isWhitespace).reverse

/-- Split a string at every occurrence of `sep` (the separator is dropped);
always returns at least one (possibly empty) piece, like JavaScript
`String.split`. -/
def splitOnChar (sep : Char) : Str → List Str
  | [] => [[]]
  | c :: rest =>
    match splitOnChar sep rest with
    | [] => [[]]
    | l :: ls => if c == sep then [] :: l :: ls else (c :: l) :: ls

/-- One step of JavaScript `Set` accumulation in insertion order. -/
def insertUnique (acc : List Str) (x : Str) : List Str :=
  if acc.contains x then acc else acc ++ [x]

/-- `Array.from(new Set(l))`: deduplicate keeping first occurrences. -/
def dedupStrs (l : List Str) : List Str := l.foldl insertUnique []

/-! ### Input guard (`isValidDomain`, source lines 22-84) -/

/-- A character of the regex class `[A-Za-z0-9-]`. -/
def isLabelChar (c : Char) : Bool := c.isAlpha || c.isDigit || c == '-'

/-- First label of `DOMAIN_REGEX`: `(?!-)[A-Za-z0-9-]{1,63}(?<!-)` —
1 to 63 characters of the class, not starting and not ending with `-`. -/
def firstLabelOk (l : Str) : Bool :=
  decide (1 ≤ l.length) && decide (l.length ≤ 63) && l.all isLabelChar &&
  !(strStartsWith l ['-']) && !(strEndsWith l ['-'])

/-- Middle group of `DOMAIN_REGEX`: `(\.[A-Za-z0-9-]{1,63})*` — each inner
label is 1 to 63 class characters, with no hyphen-position restriction. -/
def midLabelOk (l : Str) : Bool :=
  decide (1 ≤ l.length) && decide (l.length ≤ 63) && l.all isLabelChar

/-- Final part of `DOMAIN_REGEX`: `\.[A-Za-z]{2,}$` — at least two
alphabetic characters, with no upper length bound. -/
def finalLabelOk (l : Str) : Bool :=
  decide (2 ≤ l.length) && l.all Char.isAlpha

/-- Check the labels after the first: all but the last must satisfy
`midLabelOk`, the last must satisfy `finalLabelOk`; at least one label. -/
def tailLabelsOk : List Str → Bool
  | [] => false
  | [l] => finalLabelOk l
  | l :: ls => midLabelOk l && tailLabelsOk ls

/-- Exact matching semantics of
`DOMAIN_REGEX = /^(?!-)[A-Za-z0-9-]{1,63}(?<!-)(\.[A-Za-z0-9-]{1,63})*\.[A-Za-z]{2,}$/`.
Because `.` is not in any label character class, a backtracking match must
align each quantified group with one complete dot-separated piece of the
anchored subject, so the regex accepts exactly the strings whose dot-split
satisfies the per-label predicates below. -/
def domainRegexMatch (s : Str) : Bool :=
  match splitOnChar '.' s with
  | [] => false
  | [_] => false
  | first :: rest => firstLabelOk first && tailLabelsOk rest

structure ValidationResult where
  valid : Bool
  error : Option String
deriving Repr, DecidableEq

/-- `BLOCKED_TLDS` (source line 25). -/
def BLOCKED_TLDS : List Str :=
  [".local", ".internal", ".localhost", ".lan", ".home", ".corp", ".private"].map
    String.toList

/-- `BLOCKED_DOMAINS` (source lines 40-44). -/
def BLOCKED_DOMAINS : List Str :=
  ["169.254.169.254", "metadata.google.internal", "metadata.azure.com"].map
    String.toList

/-- The regex `/^[\d.]+$/`: nonempty and all characters digits or dots. -/
def isIPLike (s : Str) : Bool := !s.isEmpty && s.all (fun c => c.isDigit || c == '.')

/-- `isValidDomain` (source lines 51-84), branch for branch. -/
def isValidDomain (domain : Str) : ValidationResult :=
  if isIPLike domain then
    ⟨false, some "IP addresses are not allowed. Please provide a domain name."⟩
  else if domain.contains ':' then
    ⟨false, some "IPv6 addresses are not allowed. Please provide a domain name."⟩
  else if BLOCKED_DOMAINS.any (fun b => strContainsSub (toLowerStr domain) b) then
    ⟨false, some "This domain is not allowed for scanning."⟩
  else if BLOCKED_TLDS.any (fun t => strEndsWith (toLowerStr domain) t) then
    ⟨false, some "Internal/local domains are not allowed for scanning."⟩
  else if !domainRegexMatch domain then
    ⟨false, some "Invalid domain format. Please provide a valid domain name."⟩
  else if 253 < domain.length then
    ⟨false, some "Domain name is too long."⟩
  else
    ⟨true, none⟩

/-- Modelled from the spec: the RFC-1035-style label condition claim C2
attributes to every label — 1 to 63 characters, alphanumeric or hyphen,
with no leading or trailing hyphen. -/
def claimLabelOk (l : Str) : Bool :=
  decide (1 ≤ l.length) && decide (l.length ≤ 63) && l.all isLabelChar &&
  !(strStartsWith l ['-']) && !(strEndsWith l ['-'])

/-- Modelled from the spec: the full grammar of claim C2 — every label
satisfies `claimLabelOk`, there are at least two labels, and the final
label is alphabetic of length at least 2. -/
def rfc1035ClaimGrammar (s : Str) : Bool :=
  let labels := splitOnChar '.' s
  decide (2 ≤ labels.length) && labels.all claimLabelOk &&
  (match labels.getLast? with
   | some l => finalLabelOk l
   | none => false)

/-! ### Private-IP filter (`PRIVATE_IP_PATTERNS`, `isPrivateIP`, lines 28-37, 86-88) -/

/-- The regex `/^172\.(1[6-9]|2[0-9]|3[0-1])\./`. -/
def is172Private : Str → Bool
  | '1' :: '7' :: '2' :: '.' :: a :: b :: '.' :: _ =>
    (a == '1' && '6' ≤ b && b ≤ '9') ||
    (a == '2' && b.isDigit) ||
    (a == '3' && (b == '0' || b == '1'))
  | _ => false

/-- `isPrivateIP` (lines 86-88): each of the other seven patterns in
`PRIVATE_IP_PATTERNS` is an anchored literal prefix. -/
def isPrivateIP (ip : Str) : Bool :=
  strStartsWith ip ("127.".toList) ||
  strStartsWith ip ("10.".toList) ||
  is172Private ip ||
  strStartsWith ip ("192.168.".toList) ||
  strStartsWith ip ("169.254.".toList) ||
  strStartsWith ip ("0.".toList) ||
  strStartsWith ip ("224.".toList) ||
  strStartsWith ip ("240.".toList)

/-! ### Regex pattern tables (cloud providers, anomalies, takeover) -/

/-- The shapes of case-insensitive regexes appearing in `CLOUD_PATTERNS` and
`TAKEOVER_FINGERPRINTS`: an end-anchored literal (`/\.lit$/i`), an
unanchored literal (`/lit/i`), or the one non-literal pattern
`/\.s3-[a-z0-9-]+\.amazonaws\.com$/i`. -/
inductive RegexPat
  | suffixLit (lit : Str)
  | substrLit (lit : Str)
  | s3Regional
deriving Repr, DecidableEq

/-- Character class `[a-z0-9-]` (applied after case folding, so it also
covers `A-Z` of the original subject, matching the `/i` flag). -/
def isS3Class (c : Char) : Bool := c.isLower || c.isDigit || c == '-'

/-- Matching of `/\.s3-[a-z0-9-]+\.amazonaws\.com$/i` on an already
lower-cased subject `t`.  The subject must end in `".amazonaws.com"`; in the
remainder, the characters between the mandatory literal `".s3-"` and that
ending may contain no dot (the class has none), so the match exists exactly
when the maximal class-character run at the end of the remainder is preceded
by a `'.'` and starts with `"s3-"` followed by at least one class
character. -/
def s3RegionalMatch (t : Str) : Bool :=
  strEndsWith t (".amazonaws.com".toList) &&
  (let r := t.take (t.length - 14)
   let run := (r.reverse.takeWhile isS3Class).reverse
   strEndsWith (r.take (r.length - run.length)) ['.'] &&
   strStartsWith run ("s3-".toList) && decide (4 ≤ run.length))

/-- `RegExp.test` for the pattern shapes above; the `/i` flag is modelled by
case folding the subject (all pattern literals are lower case). -/
def testPat (p : RegexPat) (s : Str) : Bool :=
  let t := toLowerStr s
  match p with
  | .suffixLit lit => strEndsWith t lit
  | .substrLit lit => strContainsSub t lit
  | .s3Regional => s3RegionalMatch t

/-- `CLOUD_PATTERNS` (lines 446-465), in source (insertion) order. -/
def CLOUD_PATTERNS : List (Str × List RegexPat) :=
  [("aws".toList,
    [.suffixLit (".amazonaws.com".toList), .suffixLit (".aws.amazon.com".toList),
     .substrLit ("s3.".toList), .substrLit ("ec2.".toList), .substrLit (".elb.".toList)]),
   ("azure".toList,
    [.suffixLit (".azure.com".toList), .suffixLit (".azurewebsites.net".toList),
     .suffixLit (".cloudapp.azure.com".toList), .suffixLit (".blob.core.windows.net".toList)]),
   ("gcp".toList,
    [.suffixLit (".googleapis.com".toList), .suffixLit (".appspot.com".toList),
     .suffixLit (".cloud.google.com".toList), .suffixLit (".storage.googleapis.com".toList)]),
   ("cloudflare".toList,
    [.suffixLit (".cloudflare.com".toList), .suffixLit (".cdn.cloudflare.net".toList)]),
   ("digitalocean".toList,
    [.suffixLit (".digitalocean.com".toList), .suffixLit (".digitaloceanspaces.com".toList)]),
   ("heroku".toList, [.suffixLit (".herokuapp.com".toList)]),
   ("vercel".toList, [.suffixLit (".vercel.app".toList), .suffixLit (".now.sh".toList)]),
   ("netlify".toList, [.suffixLit (".netlify.app".toList), .suffixLit (".netlify.com".toList)])]

/-- Inner loops of `detectCloudProvider`: first provider with a pattern
matching one of the targets wins. -/
def cloudProviderGo (toCheck : List Str) : List (Str × List RegexPat) → Option Str
  | [] => none
  | (provider, pats) :: rest =>
    if pats.any (fun p => toCheck.any (fun t => testPat p t)) then some provider
    else cloudProviderGo toCheck rest

/-- `detectCloudProvider` (lines 804-817).  `[subdomain, cname].filter(Boolean)`
keeps the name and the CNAME when they are truthy (non-null, nonempty). -/
def detectCloudProvider (subdomain : Str) (cname : Option Str) : Option Str :=
  let toCheck :=
    (if subdomain.isEmpty then [] else [subdomain]) ++
    (match cname with
     | some c => if c.isEmpty then [] else [c]
     | none => [])
  cloudProviderGo toCheck CLOUD_PATTERNS

/-! ### Anomaly detection (`ANOMALY_PATTERNS`, `detectAnomaly`, lines 429-443, 819-826) -/

/-- `ANOMALY_PATTERNS` (lines 429-443): each entry `/tok/i` is an
unanchored case-insensitive literal; the list keeps source order and each
element is the regex's `source` text. -/
def ANOMALY_PATTERNS : List Str :=
  ["backup", "bak", "old", "temp", "tmp", "test", "dev", "staging", "internal",
   "admin", "debug", "legacy", "archive"].map String.toList

structure AnomalyResult where
  isAnomaly : Bool
  reason : Option Str
deriving Repr, DecidableEq

/-- Loop of `detectAnomaly`: first matching pattern wins and its source text
is spliced into the reason string. -/
def detectAnomalyGo (subdomain : Str) : List Str → AnomalyResult
  | [] => ⟨false, none⟩
  | p :: rest =>
    if strContainsSub (toLowerStr subdomain) p then
      ⟨true, some ("Suspicious pattern: ".toList ++ p)⟩
    else detectAnomalyGo subdomain rest

/-- `detectAnomaly` (lines 819-826). -/
def detectAnomaly (subdomain : Str) : AnomalyResult :=
  detectAnomalyGo subdomain ANOMALY_PATTERNS

/-- Modelled from the spec: the matching claim C6 describes — the anomaly
tokens are sought only in the candidate's bare name (the part before the
apex domain), not in the whole candidate string. -/
def bareNameAnomalous (bareName : Str) : Bool :=
  ANOMALY_PATTERNS.any (fun p => strContainsSub (toLowerStr bareName) p)

/-! ### Takeover fingerprints (`TAKEOVER_FINGERPRINTS`, lines 468-517) -/

structure Fingerprint where
  serviceType : Str
  patterns : List RegexPat
  errorSignatures : List Str
deriving Repr, DecidableEq

/-- `TAKEOVER_FINGERPRINTS` (lines 468-517), in source (insertion) order. -/
def TAKEOVER_FINGERPRINTS : List Fingerprint :=
  [⟨"AWS S3".toList,
    [.suffixLit (".s3.amazonaws.com".toList), .s3Regional],
    ["NoSuchBucket", "The specified bucket does not exist"].map String.toList⟩,
   ⟨"GitHub Pages".toList,
    [.suffixLit (".github.io".toList)],
    ["There isn't a GitHub Pages site here", "404"].map String.toList⟩,
   ⟨"Heroku".toList,
    [.suffixLit (".herokuapp.com".toList)],
    ["no-such-app", "There is no app configured at that hostname",
     "herokucdn.com/error-pages"].map String.toList⟩,
   ⟨"Azure".toList,
    [.suffixLit (".azurewebsites.net".toList), .suffixLit (".cloudapp.azure.com".toList)],
    ["404 Web Site not found", "Azure Web App - Default", "does not exist"].map String.toList⟩,
   ⟨"CloudFront".toList,
    [.suffixLit (".cloudfront.net".toList)],
    ["Bad request", "ERROR: The request could not be satisfied"].map String.toList⟩,
   ⟨"Pantheon".toList,
    [.suffixLit (".pantheon.io".toList)],
    ["404 error unknown site", "The gods are wise"].map String.toList⟩,
   ⟨"Fastly".toList,
    [.suffixLit (".fastly.net".toList)],
    ["Fastly error: unknown domain"].map String.toList⟩,
   ⟨"Shopify".toList,
    [.suffixLit (".myshopify.com".toList)],
    ["Sorry, this shop is currently unavailable", "Only one step left"].map String.toList⟩,
   ⟨"Tumblr".toList,
    [.suffixLit (".tumblr.com".toList)],
    ["There's nothing here", "Whatever you were looking for"].map String.toList⟩,
   ⟨"WordPress".toList,
    [.suffixLit (".wordpress.com".toList)],
    ["Do you want to register"].map String.toList⟩,
   ⟨"Ghost".toList,
    [.suffixLit (".ghost.io".toList)],
    ["The thing you were looking for is no longer here"].map String.toList⟩]

structure TakeoverResult where
  vulnerable : Bool
  takeType : Option Str
  verified : Bool
deriving Repr, DecidableEq

/-- Loop body of `checkTakeoverVulnerability`: scan the fingerprint table;
on the first CNAME pattern match, verification requires an error signature
of that service in the (truthy) response body, or — for GitHub Pages — an
HTTP(S) 404. -/
def takeoverGo (c : Str) (responseBody : Option Str)
    (httpStatus httpsStatus : Option Int) : List Fingerprint → TakeoverResult
  | [] => ⟨false, none, false⟩
  | fp :: rest =>
    if fp.patterns.any (fun p => testPat p c) then
      let sigVerified :=
        match responseBody with
        | none => false
        | some b =>
          !b.isEmpty && fp.errorSignatures.any (fun sig => strContainsSub b sig)
      let verified :=
        sigVerified ||
        (fp.serviceType == "GitHub Pages".toList &&
          (httpStatus == some 404 || httpsStatus == some 404))
      ⟨true, some fp.serviceType, verified⟩
    else takeoverGo c responseBody httpStatus httpsStatus rest

/-- `checkTakeoverVulnerability` (lines 828-862).  `if (!cname)` treats both
`null` and the empty string as absent. -/
def checkTakeoverVulnerability :
    Option Str → Option Str → Option Int → Option Int → TakeoverResult
  | none, _, _, _ => ⟨false, none, false⟩
  | some c, responseBody, httpStatus, httpsStatus =>
    if c.isEmpty then ⟨false, none, false⟩
    else takeoverGo c responseBody httpStatus httpsStatus TAKEOVER_FINGERPRINTS

/-! ### Risk scorer (`calculateRiskScore`, lines 864-900) -/

structure RiskInput where
  isAnomaly : Bool
  takeoverVulnerable : Bool
  takeoverVerified : Bool
  httpStatus : Option Int
  httpsStatus : Option Int
  cloudProvider : Option Str
  server : Option Str
  technologies : List Str
  exposedPorts : List Int
deriving Repr, DecidableEq

/-- JavaScript truthiness of a `number | null` value (`null` and `0` are
falsy). -/
def numTruthy : Option Int → Bool
  | none => false
  | some n => n != 0

/-- JavaScript truthiness of a `string | null` value (`null` and `""` are
falsy). -/
def strTruthy : Option Str → Bool
  | none => false
  | some s => !s.isEmpty

/-- The `sensitivePorts` list of `calculateRiskScore`. -/
def sensitivePorts : List Int := [22, 23, 3306, 5432, 6379, 27017, 9200, 11211]

/-- `calculateRiskScore` (lines 864-900), statement for statement.  All
increments are nonnegative, so the JavaScript number is modelled as `Nat`. -/
def calculateRiskScore (data : RiskInput) : Nat :=
  let s1 := if data.takeoverVerified then 50
            else if data.takeoverVulnerable then 30 else 0
  let s2 := if data.isAnomaly then s1 + 20 else s1
  let s3 := if !numTruthy data.httpsStatus && numTruthy data.httpStatus then s2 + 15 else s2
  let s4 := if data.httpStatus == some 200 || data.httpsStatus == some 200 then s3 + 5 else s3
  let s5 := if strTruthy data.cloudProvider then s4 + 5 else s4
  let s6 := s5 + (data.exposedPorts.filter (fun p => sensitivePorts.contains p)).length * 10
  let s7 := if strTruthy data.server then s6 + 2 else s6
  let s8 := if 0 < data.technologies.length then
              s7 + min (data.technologies.length * 2) 6
            else s7
  min s8 100

/-! ### HTTP probing (`TECH_SIGNATURES`, `checkHTTP`, lines 520-571, 706-802)

A fetch attempt either throws (modelled as `none`) or yields a response
with a status, response headers (an association list with lower-case
names, as `Headers.get` is case-insensitive) and a body read that may
itself fail (`none`). -/

structure HttpResponse where
  status : Int
  headers : List (Str × Str)
  bodyRead : Option Str
deriving Repr, DecidableEq

/-- The network behaviour of one candidate host: outcome of the HTTPS
fetch and of the HTTP fetch. -/
structure NetworkState where
  https : Option HttpResponse
  http : Option HttpResponse
deriving Repr, DecidableEq

/-- `Headers.get`: first association for the name, `null` when absent. -/
def headerGet (hs : List (Str × Str)) (name : Str) : Option Str :=
  (hs.find? (fun kv => kv.1 == name)).map Prod.snd

/-- The detector functions of `TECH_SIGNATURES.headers` as data: return the
value itself, a constant, or the three value-inspecting special cases. -/
inductive HeaderDetector
  | identity
  | constLabel (t : Str)
  | servedBy
  | viaHeader
  | xCache
deriving Repr, DecidableEq

def runDetector : HeaderDetector → Str → Option Str
  | .identity, v => some v
  | .constLabel t, _ => some t
  | .servedBy, v =>
    some (if strContainsSub v ("cache".toList) then "Varnish/Fastly".toList else v)
  | .viaHeader, v =>
    if strContainsSub v ("cloudfront".toList) then some ("AWS CloudFront".toList)
    else if strContainsSub v ("varnish".toList) then some ("Varnish".toList)
    else none
  | .xCache, v =>
    if strContainsSub v ("cloudfront".toList) then some ("AWS CloudFront".toList)
    else none

/-- `TECH_SIGNATURES.headers` (lines 521-543), in source order. -/
def techHeaderSignatures : List (Str × HeaderDetector) :=
  [("x-powered-by".toList, .identity),
   ("server".toList, .identity),
   ("x-aspnet-version".toList, .constLabel ("ASP.NET".toList)),
   ("x-aspnetmvc-version".toList, .constLabel ("ASP.NET MVC".toList)),
   ("x-drupal-cache".toList, .constLabel ("Drupal".toList)),
   ("x-generator".toList, .identity),
   ("x-shopify-stage".toList, .constLabel ("Shopify".toList)),
   ("x-vercel-id".toList, .constLabel ("Vercel".toList)),
   ("x-amz-cf-id".toList, .constLabel ("AWS CloudFront".toList)),
   ("x-amz-cf-pop".toList, .constLabel ("AWS CloudFront".toList)),
   ("x-amz-request-id".toList, .constLabel ("AWS S3".toList)),
   ("cf-ray".toList, .constLabel ("Cloudflare".toList)),
   ("x-github-request-id".toList, .constLabel ("GitHub".toList)),
   ("x-served-by".toList, .servedBy),
   ("via".toList, .viaHeader),
   ("x-cache".toList, .xCache),
   ("x-fw-version".toList, .constLabel ("Flywheel".toList)),
   ("x-kinsta-cache".toList, .constLabel ("Kinsta".toList)),
   ("x-litespeed-cache".toList, .constLabel ("LiteSpeed".toList)),
   ("x-sucuri-id".toList, .constLabel ("Sucuri".toList))]

/-- `TECH_SIGNATURES.serverPatterns` (lines 545-557): unanchored
case-insensitive literal patterns with their labels. -/
def techServerPatterns : List (Str × Str) :=
  [("nginx", "Nginx"), ("apache", "Apache"), ("cloudflare", "Cloudflare"),
   ("microsoft-iis", "Microsoft IIS"), ("litespeed", "LiteSpeed"),
   ("openresty", "OpenResty"), ("caddy", "Caddy"),
   ("gunicorn", "Gunicorn (Python)"), ("uvicorn", "Uvicorn (Python)"),
   ("express", "Express.js"), ("kestrel", "Kestrel (.NET)")].map
    (fun pq => (pq.1.toList, pq.2.toList))

/-- `TECH_SIGNATURES.cookies` (lines 559-570): cookie-name substrings with
their labels (the lookup is a case-sensitive `includes`). -/
def techCookieSignatures : List (Str × Str) :=
  [("PHPSESSID", "PHP"), ("JSESSIONID", "Java"), ("ASP.NET_SessionId", "ASP.NET"),
   ("_rails_session", "Ruby on Rails"), ("laravel_session", "Laravel (PHP)"),
   ("CAKEPHP", "CakePHP"), ("ci_session", "CodeIgniter (PHP)"),
   ("symfony", "Symfony (PHP)"), ("django", "Django (Python)"),
   ("express.sid", "Express.js")].map (fun pq => (pq.1.toList, pq.2.toList))

/-- Push `t` unless already present (`!technologies.includes(tech)`). -/
def pushTech (techs : List Str) (t : Str) : List Str :=
  if techs.contains t then techs else techs ++ [t]

/-- The header-signature loop shared by the HTTPS and HTTP branches of
`checkHTTP`: for each table entry, a truthy header value run through the
detector contributes a truthy, deduplicated technology label. -/
def collectHeaderTechs (hs : List (Str × Str)) (techs0 : List Str) : List Str :=
  techHeaderSignatures.foldl
    (fun techs entry =>
      match headerGet hs entry.1 with
      | none => techs
      | some v =>
        if v.isEmpty then techs
        else
          match runDetector entry.2 v with
          | none => techs
          | some t => if t.isEmpty then techs else pushTech techs t)
    techs0

/-- The `serverPatterns` loop (HTTPS branch only). -/
def collectServerTechs (server : Str) (techs0 : List Str) : List Str :=
  techServerPatterns.foldl
    (fun techs pt =>
      if strContainsSub (toLowerStr server) pt.1 then pushTech techs pt.2 else techs)
    techs0

/-- The cookie loop (HTTPS branch only); `cookies` is
`headers.get("set-cookie") || ""`. -/
def collectCookieTechs (cookies : Str) (techs0 : List Str) : List Str :=
  techCookieSignatures.foldl
    (fun techs ct =>
      if strContainsSub cookies ct.1 then pushTech techs ct.2 else techs)
    techs0

/-- Body retention of `checkHTTP`: a failed `text()` leaves the body `null`;
a successful read is truncated to 10,000 characters. -/
def retainBody : Option Str → Option Str
  | none => none
  | some b => some (if 10000 < b.length then b.take 10000 else b)

structure ProbeResult where
  httpStatus : Option Int
  httpsStatus : Option Int
  server : Option Str
  technologies : List Str
  responseBody : Option Str
deriving Repr, DecidableEq

/-- `checkHTTP` (lines 706-802).  The HTTPS fetch is attempted first; only
when that fetch itself throws (`none`) is the HTTP fetch attempted.  A
response of any status — including non-2xx — is recorded and ends the
function without touching HTTP.  The HTTP fallback branch mirrors the
header-signature loop and body retention but (as in the source) performs
neither the server-pattern nor the cookie checks. -/
def checkHTTP (net : NetworkState) : ProbeResult :=
  match net.https with
  | some resp =>
    let server := headerGet resp.headers ("server".toList)
    let t1 := collectHeaderTechs resp.headers []
    let t2 := match server with
              | some sv => if sv.isEmpty then t1 else collectServerTechs sv t1
              | none => t1
    let cookies := (headerGet resp.headers ("set-cookie".toList)).getD []
    let t3 := collectCookieTechs cookies t2
    ⟨none, some resp.status, server, t3, retainBody resp.bodyRead⟩
  | none =>
    match net.http with
    | some resp =>
      let server := headerGet resp.headers ("server".toList)
      let t1 := collectHeaderTechs resp.headers []
      ⟨some resp.status, none, server, t1, retainBody resp.bodyRead⟩
    | none => ⟨none, none, none, [], none⟩

/-! ### DNS resolution (`resolveDNS`, lines 675-704) -/

/-- One entry of the DNS-over-HTTPS `Answer` array, by record type. -/
inductive DNSAnswer
  | A (data : Str)
  | CNAME (data : Str)
  | otherType (t : Nat) (data : Str)
deriving Repr, DecidableEq

structure ResolveResult where
  ips : List Str
  cname : Option Str
deriving Repr, DecidableEq

/-- `resolveDNS` (lines 675-704): `none` models a failed fetch or JSON
parse, or an absent `Answer` field (the catch yields `{ips: [], cname:
null}`).  A answers are kept when not private; each CNAME answer
overwrites the cname. -/
def resolveDNS (answers : Option (List DNSAnswer)) : ResolveResult :=
  match answers with
  | none => ⟨[], none⟩
  | some ans =>
    ans.foldl
      (fun acc a =>
        match a with
        | .A ip => if isPrivateIP ip then acc else ⟨acc.ips ++ [ip], acc.cname⟩
        | .CNAME c => ⟨acc.ips, some c⟩
        | .otherType _ _ => acc)
      ⟨[], none⟩

/-! ### Certificate-transparency lookup (`queryCTLogs`, lines 613-653) -/

/-- One certificate row of the crt.sh JSON: a possibly absent
`name_value`. -/
structure CertEntry where
  name_value : Option Str
deriving Repr, DecidableEq

/-- The keep condition of the CT loop, applied to the trimmed, lower-cased
name `t`: truthy, no leading wildcard `*`, suffixed by the lower-cased
domain, and not the apex itself. -/
def ctKeep (domain : Str) (t : Str) : Bool :=
  !t.isEmpty && !(strStartsWith t ['*']) &&
  strEndsWith t (toLowerStr domain) && t != toLowerStr domain

/-- Names contributed by one certificate: `name_value` (when truthy) is
split on newlines; each line is trimmed, lower-cased and filtered by
`ctKeep`. -/
def ctNamesOfCert (domain : Str) (cert : CertEntry) : List Str :=
  match cert.name_value with
  | none => []
  | some nv =>
    if nv.isEmpty then []
    else
      (splitOnChar '\n' nv).filterMap
        (fun name =>
          if ctKeep domain (toLowerStr (trimStr name)) then
            some (toLowerStr (trimStr name))
          else none)

/-- `queryCTLogs` (lines 613-653): `none` models a network failure or a
non-OK response (both degrade to `[]`); otherwise the kept names of all
certificates are collected into a `Set` in insertion order. -/
def queryCTLogs (ctData : Option (List CertEntry)) (domain : Str) : List Str :=
  match ctData with
  | none => []
  | some certs => dedupStrs (certs.flatMap (ctNamesOfCert domain))

/-! ### Candidate generation (wordlist and permutations, lines 91-426, 943-956) -/

/-- `COMMON_SUBDOMAINS` (lines 91-406), in source order, duplicates
included (the handler's `Set` collapses them). -/
def COMMON_SUBDOMAINS : List Str :=
  ["www", "mail", "ftp", "localhost", "webmail", "smtp", "pop", "ns1", "ns2",
   "ns3", "ns4", "admin", "administrator", "blog", "dev", "development",
   "staging", "test", "testing", "api", "api-v1", "api-v2", "api-v3", "app",
   "apps", "mobile", "cdn", "static", "assets", "images", "img", "media",
   "video", "audio", "files", "download", "downloads", "upload",
   "docs", "documentation", "help", "support", "kb", "knowledge", "wiki",
   "faq", "guide",
   "portal", "vpn", "remote", "gateway", "proxy", "cache", "edge", "node",
   "server", "git", "gitlab", "github", "bitbucket", "jenkins", "ci", "cd",
   "build", "deploy", "prod", "production", "beta", "alpha", "demo",
   "sandbox", "uat", "qa", "stage", "old", "new", "legacy", "backup", "bak",
   "temp", "tmp", "archive", "mirror",
   "shop", "store", "cart", "checkout", "pay", "payment", "payments",
   "billing", "invoice", "order", "orders", "catalog", "product", "products",
   "inventory", "merchant",
   "secure", "ssl", "https", "login", "signin", "auth", "authentication",
   "sso", "oauth", "account", "accounts", "profile", "user", "users",
   "member", "members", "register",
   "panel", "cpanel", "whm", "plesk", "webmin", "phpmyadmin", "adminer",
   "mysql", "directadmin", "ispconfig", "hestia", "virtualmin", "webpanel",
   "dashboard",
   "db", "database", "sql", "mysql", "postgres", "postgresql", "mongo",
   "mongodb", "redis", "elastic", "elasticsearch", "solr", "s3", "bucket",
   "storage", "cloud",
   "grafana", "prometheus", "kibana", "logstash", "splunk", "datadog",
   "newrelic", "sentry", "status", "health", "monitor", "monitoring",
   "metrics", "analytics", "tracking", "events", "logs", "logging", "audit",
   "reports", "reporting",
   "internal", "intranet", "extranet", "private", "corp", "corporate",
   "office", "hr", "finance", "sales", "marketing", "engineering", "legal",
   "it", "ops", "jira", "confluence", "slack", "teams", "zoom", "meet",
   "calendar",
   "ws", "websocket", "socket", "realtime", "push", "notifications",
   "notify", "email", "newsletter", "subscribe", "unsubscribe",
   "preferences", "settings", "forum", "community", "discuss", "chat",
   "message", "messaging",
   "m", "mobile", "ios", "android", "app", "apps", "pwa",
   "origin", "lb", "loadbalancer", "haproxy", "nginx", "apache", "web",
   "www2", "www3", "assets1", "assets2", "static1", "static2", "cdn1",
   "cdn2", "media1", "media2",
   "dev1", "dev2", "test1", "test2", "staging1", "staging2", "preview",
   "canary", "feature", "experiment", "debug", "trace", "api-dev",
   "api-staging", "api-test",
   "us", "eu", "asia", "uk", "de", "fr", "jp", "cn", "au", "ca", "br", "in",
   "us-east", "us-west", "eu-west", "eu-central", "ap-south", "ap-northeast",
   "console", "control", "manage", "management", "config", "configuration",
   "service", "services", "microservice", "lambda", "function", "functions",
   "rest", "graphql", "grpc", "rpc", "soap", "wsdl", "xml", "json"].map
    String.toList

/-- The suffix list of `generatePermutations` (line 410). -/
def permSuffixList : List Str :=
  ["1", "2", "01", "02", "-dev", "-prod", "-api", "-v2", "-new", "-old",
   "-test"].map String.toList

/-- The prefix list of `generatePermutations` (line 411). -/
def permPrefixList : List Str :=
  ["dev-", "staging-", "test-", "api-", "admin-", "internal-", "prod-"].map
    String.toList

/-- `generatePermutations` (lines 409-426): `base ++ suffix ++ "." ++ domain`
then `prefix ++ base ++ "." ++ domain`, in that order. -/
def generatePermutations (base domain : Str) : List Str :=
  permSuffixList.map (fun suf => base ++ suf ++ '.' :: domain) ++
  permPrefixList.map (fun pre => pre ++ base ++ '.' :: domain)

/-- The `commonBases` of the handler (line 952). -/
def commonBases : List Str :=
  ["api", "app", "dev", "staging", "test", "admin", "portal", "mail",
   "www"].map String.toList

/-- Wordlist candidates: each prefix joined to the domain (lines 944-948). -/
def wordlistCandidates (domain : Str) : List Str :=
  COMMON_SUBDOMAINS.map (fun pre => pre ++ '.' :: domain)

/-- All permutation candidates (lines 952-956); this source is not gated by
any option. -/
def permutationCandidates (domain : Str) : List Str :=
  commonBases.flatMap (fun base => generatePermutations base domain)

/-! ### The scan handler (lines 902-1148) -/

/-- Per-scan option toggles; `none` models an absent JSON field.  A source
is enabled unless its option is *explicitly* `false`
(`options.x !== false`). -/
structure ScanOptions where
  ctLogs : Option Bool
  dnsBruteforce : Option Bool
  httpProbe : Option Bool
  techFingerprint : Option Bool
  takeoverCheck : Option Bool
deriving Repr, DecidableEq

def optEnabled (o : Option Bool) : Bool := o != some false

structure ScanRequest where
  scanId : Str
  domain : Str
  options : ScanOptions
deriving Repr, DecidableEq

/-- Environment seen by one candidate: its DNS answer, the network
behaviour of its probes (`none` models the probe promise losing the
timeout race or otherwise rejecting), and its Wayback rows. -/
structure CandOracle where
  dns : Option (List DNSAnswer)
  net : Option NetworkState
  wayback : List Str

/-- The all-null `httpData` initial value of the handler (lines 983-989). -/
def defaultProbe : ProbeResult := ⟨none, none, none, [], none⟩

/-- Result object built per surviving candidate (lines 1042-1053). -/
structure RawResult where
  subdomain : Str
  ips : List Str
  cname : Option Str
  httpData : ProbeResult
  isActive : Bool
  cloudProvider : Option Str
  anomalyData : AnomalyResult
  takeoverData : TakeoverResult
  riskScore : Nat
  waybackUrls : List Str
deriving Repr, DecidableEq

/-- The body of the per-candidate worker after the drop check
(lines 982-1053). -/
def processLive (opts : ScanOptions) (o : Str → CandOracle) (subdomain : Str)
    (res : ResolveResult) : RawResult :=
  let httpData :=
    if optEnabled opts.httpProbe then
      match (o subdomain).net with
      | some net => checkHTTP net
      | none => defaultProbe
    else defaultProbe
  let isActive :=
    httpData.httpStatus == some 200 || httpData.httpsStatus == some 200 ||
    (match httpData.httpsStatus with
     | some n => decide (n < 500)
     | none => false)
  let cloudProvider := detectCloudProvider subdomain res.cname
  let anomalyData := detectAnomaly subdomain
  let takeoverData :=
    checkTakeoverVulnerability res.cname httpData.responseBody
      httpData.httpStatus httpData.httpsStatus
  let waybackUrls := if isActive then (o subdomain).wayback else []
  let riskScore :=
    calculateRiskScore
      ⟨anomalyData.isAnomaly, takeoverData.vulnerable, takeoverData.verified,
       httpData.httpStatus, httpData.httpsStatus, cloudProvider,
       httpData.server, httpData.technologies, []⟩
  ⟨subdomain, res.ips, res.cname, httpData, isActive, cloudProvider,
   anomalyData, takeoverData, riskScore, waybackUrls⟩

/-- The per-candidate worker (lines 971-1054): resolve DNS, and when no
public IP and no truthy CNAME was found, drop the candidate (`return
null`); otherwise continue with the probe and the heuristics. -/
def processSubdomain (opts : ScanOptions) (o : Str → CandOracle)
    (subdomain : Str) : Option RawResult :=
  if (resolveDNS (o subdomain).dns).ips.isEmpty &&
      !(strTruthy (resolveDNS (o subdomain).dns).cname) then none
  else some (processLive opts o subdomain (resolveDNS (o subdomain).dns))

/-- A persisted subdomain row (lines 1069-1090); the two wall-clock
timestamps and the `dns_records` JSON (a re-packaging of `ip_addresses`
and `cname_record`) are not modelled. -/
structure SubRecord where
  scan_id : Str
  name : Str
  status : Str
  ip_addresses : List Str
  http_status : Option Int
  https_status : Option Int
  technologies : List Str
  server : Option Str
  cloud_provider : Option Str
  risk_score : Nat
  is_anomaly : Bool
  anomaly_reason : Option Str
  takeover_vulnerable : Bool
  takeover_type : Option Str
  takeover_verified : Bool
  cname_record : Option Str
  wayback_urls : List Str
deriving Repr, DecidableEq

/-- Row construction from a worker result (lines 1069-1090). -/
def toRecord (scanId : Str) (r : RawResult) : SubRecord where
  scan_id := scanId
  name := r.subdomain
  status := if r.isActive then "active".toList else "inactive".toList
  ip_addresses := r.ips
  http_status := r.httpData.httpStatus
  https_status := r.httpData.httpsStatus
  technologies := r.httpData.technologies
  server := r.httpData.server
  cloud_provider := r.cloudProvider
  risk_score := r.riskScore
  is_anomaly := r.anomalyData.isAnomaly
  anomaly_reason := r.anomalyData.reason
  takeover_vulnerable := r.takeoverData.vulnerable
  takeover_type := r.takeoverData.takeType
  takeover_verified := r.takeoverData.verified
  cname_record := r.cname
  wayback_urls := r.waybackUrls

/-- The summary written to the scan row and returned to the caller
(lines 1107-1137). -/
structure ScanStats where
  total : Nat
  active : Nat
  anomalies : Nat
  cloudAssets : Nat
  takeoverVulnerable : Nat
deriving Repr, DecidableEq

/-- External side effects of a scan, in issue order. -/
inductive Effect
  | scanRunning
  | ctQuery
  | dnsResolve (name : Str)
  | httpProbe (name : Str)
  | waybackQuery (name : Str)
  | insertBatch (rows : List SubRecord)
  | scanCompleted (stats : ScanStats)
deriving Repr, DecidableEq

/-- Batch insertion slices of 50 rows (lines 1096-1104). -/
def chunkRecords : List SubRecord → List (List SubRecord)
  | [] => []
  | x :: xs => (x :: xs.take 49) :: chunkRecords (xs.drop 49)
termination_by l => l.length
decreasing_by simp [List.length_drop]; omega

/-- Effects issued on behalf of one candidate: its DNS query, then — when
it survives — its probe (when enabled) and, for active candidates, the
Wayback lookup. -/
def candEffects (opts : ScanOptions) (o : Str → CandOracle) (c : Str) :
    List Effect :=
  Effect.dnsResolve c ::
  (match processSubdomain opts o c with
   | none => []
   | some raw =>
     (if optEnabled opts.httpProbe then [Effect.httpProbe c] else []) ++
     (if raw.isActive then [Effect.waybackQuery c] else []))

/-- The handler's response together with its external trace. -/
structure HandlerResult where
  respStatus : Nat
  errorMsg : Option String
  stats : Option ScanStats
  records : List SubRecord
  effects : List Effect
deriving Repr, DecidableEq

/-- The deduplicated candidate set of a scan (lines 934-958): CT names
(when enabled), then the wordlist (when enabled), then the permutations
(always), merged through the insertion-ordered `Set`. -/
def discoveredCandidates (req : ScanRequest) (ct : Option (List CertEntry)) :
    List Str :=
  dedupStrs
    ((if optEnabled req.options.ctLogs then queryCTLogs ct req.domain else []) ++
     (if optEnabled req.options.dnsBruteforce then wordlistCandidates req.domain
      else []) ++
     permutationCandidates req.domain)

/-- The happy path of the handler after validation (lines 926-1137). -/
def scanHappy (req : ScanRequest) (ct : Option (List CertEntry))
    (o : Str → CandOracle) : HandlerResult :=
  let discovered := discoveredCandidates req ct
  let survivors := discovered.filterMap (processSubdomain req.options o)
  let records := survivors.map (toRecord req.scanId)
  let stats : ScanStats :=
    ⟨records.length,
     survivors.countP (fun r => r.isActive),
     survivors.countP (fun r => r.anomalyData.isAnomaly),
     survivors.countP (fun r => strTruthy r.cloudProvider),
     survivors.countP (fun r => r.takeoverData.vulnerable)⟩
  { respStatus := 200
    errorMsg := none
    stats := some stats
    records := records
    effects :=
      Effect.scanRunning ::
      ((if optEnabled req.options.ctLogs then [Effect.ctQuery] else []) ++
       discovered.flatMap (candEffects req.options o) ++
       (chunkRecords records).map Effect.insertBatch ++
       [Effect.scanCompleted stats]) }

/-- The handler (lines 902-1148): the domain is validated before any
side-effecting work; a validation failure returns a 400 error response at
once, with an empty external trace. -/
def runScan (req : ScanRequest) (ct : Option (List CertEntry))
    (o : Str → CandOracle) : HandlerResult :=
  if (isValidDomain req.domain).valid = false then
    ⟨400, (isValidDomain req.domain).error, none, [], []⟩
  else scanHappy req ct o

/-! ### Concurrency limiter (`createLimiter`, lines 591-610)

The limiter closure is modelled as a transition system.  A `limit(fn)`
call first enters the wait loop (`submit`); it leaves the loop and starts
`fn` only when the check `running >= concurrency` fails, i.e. when fewer
than `K` tasks run (`enter`, which increments `running`); when `fn`
settles, `running` is decremented and one waiter is woken (`finish`; the
woken waiter re-executes the guarded check, so waking is not itself an
admission). -/

structure LimiterState where
  waiting : Nat
  running : Nat
deriving Repr, DecidableEq

/-- `MAX_CONCURRENT` (line 48). -/
def MAX_CONCURRENT : Nat := 10

inductive LimStep (K : Nat) : LimiterState → LimiterState → Prop
  | submit (s : LimiterState) : LimStep K s ⟨s.waiting + 1, s.running⟩
  | enter (s : LimiterState) (hrun : s.running < K) (hw : 0 < s.waiting) :
      LimStep K s ⟨s.waiting - 1, s.running + 1⟩
  | finish (s : LimiterState) (hrun : 0 < s.running) :
      LimStep K s ⟨s.waiting, s.running - 1⟩

/-- States reachable from the limiter's initial state (`running = 0`, empty
queue). -/
inductive LimReachable (K : Nat) : LimiterState → Prop
  | init : LimReachable K ⟨0, 0⟩
  | step {s s' : LimiterState} : LimReachable K s → LimStep K s s' →
      LimReachable K s'

/-! ### Concrete scan scenarios used as witnesses and counterexamples -/

/-- Scan request on target `example.com` with the wordlist source and the
HTTP probe disabled (the permutation source is never gated). -/
def c1Request : ScanRequest :=
  ⟨"scan".toList, "example.com".toList, ⟨none, some false, some false, none, none⟩⟩

/-- CT data containing one certificate whose SAN value is
`evilexample.com` — a name that shares a trailing string with the target
domain without being its subdomain. -/
def c1CT : Option (List CertEntry) := some [⟨some ("evilexample.com".toList)⟩]

/-- Per-candidate oracle: `evilexample.com` resolves to one public A
record; every other candidate has no DNS presence. -/
def c1Oracle : Str → CandOracle := fun s =>
  if s == "evilexample.com".toList then
    ⟨some [DNSAnswer.A ("1.2.3.4".toList)], none, []⟩
  else ⟨none, none, []⟩

/-- The subdomain row the pipeline emits for `evilexample.com` in the
scenario above. -/
def c1Record : SubRecord :=
  ⟨"scan".toList, "evilexample.com".toList, "inactive".toList,
   ["1.2.3.4".toList], none, none, [], none, none, 0, false, none,
   false, none, false, none, []⟩

/-- Scan request on target `example.com` with all gated sources
disabled. -/
def c7Request : ScanRequest :=
  ⟨"scan".toList, "example.com".toList,
   ⟨some false, some false, some false, none, none⟩⟩

/-- Oracle under which no candidate has any DNS presence. -/
def c7Oracle : Str → CandOracle := fun _ => ⟨none, none, []⟩

/-- Scan request whose target is a literal IPv4 address and therefore
fails validation. -/
def c8Request : ScanRequest :=
  ⟨"scan".toList, "192.168.1.1".toList, ⟨none, none, none, none, none⟩⟩

/-- Oracle for the rejected scan (never consulted). -/
def c8Oracle : Str → CandOracle := fun _ => ⟨none, none, []⟩

/-! ### Helper lemmas -/

theorem takeoverGo_verified_vulnerable (c : Str) (b : Option Str)
    (hs hss : Option Int) :
    ∀ fps : List Fingerprint, (takeoverGo c b hs hss fps).verified = true →
      (takeoverGo c b hs hss fps).vulnerable = true := by
  intro fps
  induction fps with
  | nil => intro h; simp [takeoverGo] at h
  | cons fp rest ih =>
    intro h
    cases hm : fp.patterns.any (fun p => testPat p c) with
    | true => simp [takeoverGo, hm]
    | false =>
      simp only [takeoverGo, hm, Bool.false_eq_true, if_false] at h ⊢
      exact ih h

theorem takeoverGo_verified_spec (c : Str) (b : Option Str)
    (hs hss : Option Int) :
    ∀ fps : List Fingerprint, (takeoverGo c b hs hss fps).verified = true →
    ∃ fp ∈ fps, (takeoverGo c b hs hss fps).takeType = some fp.serviceType ∧
      ((∃ bb, b = some bb ∧
          fp.errorSignatures.any (fun sig => strContainsSub bb sig) = true) ∨
       (fp.serviceType = "GitHub Pages".toList ∧
          (hs = some 404 ∨ hss = some 404))) := by
  intro fps
  induction fps with
  | nil => intro h; simp [takeoverGo] at h
  | cons fp rest ih =>
    intro h
    cases hm : fp.patterns.any (fun p => testPat p c) with
    | false =>
      simp only [takeoverGo, hm, Bool.false_eq_true, if_false] at h ⊢
      obtain ⟨fp', hmem, hty, hcase⟩ := ih h
      exact ⟨fp', List.mem_cons_of_mem _ hmem, hty, hcase⟩
    | true =>
      simp only [takeoverGo, hm, if_true] at h ⊢
      refine ⟨fp, List.mem_cons_self _ _, rfl, ?_⟩
      rcases Bool.or_eq_true _ _ |>.mp h with hsig | hgh
      · cases b with
        | none => simp at hsig
        | some bb =>
          simp only [Bool.and_eq_true] at hsig
          exact Or.inl ⟨bb, rfl, hsig.2⟩
      · simp only [Bool.and_eq_true, beq_iff_eq, Bool.or_eq_true] at hgh
        exact Or.inr ⟨hgh.1, hgh.2.imp (fun h2 => by simpa using h2)
          (fun h2 => by simpa using h2)⟩

theorem detectAnomalyGo_eq_find (s : Str) :
    ∀ ps : List Str, detectAnomalyGo s ps =
      match ps.find? (fun p => strContainsSub (toLowerStr s) p) with
      | none => ⟨false, none⟩
      | some p => ⟨true, some ("Suspicious pattern: ".toList ++ p)⟩ := by
  intro ps
  induction ps with
  | nil => rfl
  | cons p rest ih =>
    cases h : strContainsSub (toLowerStr s) p with
    | true => simp [detectAnomalyGo, List.find?_cons_of_pos, h]
    | false =>
      simp only [detectAnomalyGo, h, Bool.false_eq_true, if_false]
      rw [List.find?_cons_of_neg _ (by simp [h]), ih]

theorem strStartsWith_append (x y : Str) : strStartsWith (x ++ y) x = true := by
  induction x with
  | nil => cases y <;> rfl
  | cons c t ih => simp [strStartsWith, ih]

theorem strEndsWith_append (a b : Str) : strEndsWith (a ++ b) b = true := by
  unfold strEndsWith
  rw [List.reverse_append]
  exact strStartsWith_append b.reverse a.reverse

theorem mem_insertUnique {x y : Str} {acc : List Str}
    (h : x ∈ insertUnique acc y) : x ∈ acc ∨ x = y := by
  unfold insertUnique at h
  split at h
  · exact Or.inl h
  · rcases List.mem_append.mp h with h' | h'
    · exact Or.inl h'
    · exact Or.inr (List.mem_singleton.mp h')

theorem mem_foldl_insertUnique {x : Str} :
    ∀ (l acc : List Str), x ∈ l.foldl insertUnique acc → x ∈ acc ∨ x ∈ l := by
  intro l
  induction l with
  | nil => intro acc h; exact Or.inl h
  | cons y t ih =>
    intro acc h
    rcases ih (insertUnique acc y) h with h' | h'
    · rcases mem_insertUnique h' with h'' | h''
      · exact Or.inl h''
      · exact Or.inr (h'' ▸ List.mem_cons_self _ _)
    · exact Or.inr (List.mem_cons_of_mem _ h')

theorem mem_dedupStrs {x : Str} {l : List Str} (h : x ∈ dedupStrs l) :
    x ∈ l := by
  rcases mem_foldl_insertUnique l [] h with h' | h'
  · cases h'
  · exact h'

theorem queryCTLogs_mem {x : Str} {ct : Option (List CertEntry)} {d : Str}
    (h : x ∈ queryCTLogs ct d) :
    strEndsWith x (toLowerStr d) = true ∧ x ≠ toLowerStr d := by
  cases ct with
  | none => cases h
  | some certs =>
    have h1 := mem_dedupStrs h
    obtain ⟨cert, _, h2⟩ := List.mem_flatMap.mp h1
    obtain ⟨nvOpt⟩ := cert
    cases nvOpt with
    | none => simp [ctNamesOfCert] at h2
    | some nv =>
      simp only [ctNamesOfCert] at h2
      by_cases he : nv.isEmpty = true
      · rw [if_pos he] at h2; cases h2
      · rw [if_neg he] at h2
        obtain ⟨n, _, h3⟩ := List.mem_filterMap.mp h2
        by_cases hk : ctKeep d (toLowerStr (trimStr n)) = true
        · rw [if_pos hk] at h3
          cases h3
          unfold ctKeep at hk
          simp only [Bool.and_eq_true, bne_iff_ne] at hk
          exact ⟨hk.1.2, hk.2⟩
        · rw [if_neg hk] at h3; cases h3

theorem wordlistCandidates_mem {x d : Str} (h : x ∈ wordlistCandidates d) :
    strEndsWith x ('.' :: d) = true := by
  obtain ⟨pre, _, h2⟩ := List.mem_map.mp h
  rw [← h2]
  exact strEndsWith_append pre ('.' :: d)

theorem permutationCandidates_mem {x d : Str}
    (h : x ∈ permutationCandidates d) :
    strEndsWith x ('.' :: d) = true := by
  obtain ⟨base, _, h2⟩ := List.mem_flatMap.mp h
  unfold generatePermutations at h2
  rcases List.mem_append.mp h2 with h3 | h3
  · obtain ⟨suf, _, h4⟩ := List.mem_map.mp h3
    rw [← h4]
    exact strEndsWith_append (base ++ suf) ('.' :: d)
  · obtain ⟨pre, _, h4⟩ := List.mem_map.mp h3
    rw [← h4]
    exact strEndsWith_append (pre ++ base) ('.' :: d)

theorem processSubdomain_name {opts : ScanOptions} {o : Str → CandOracle}
    {c : Str} {raw : RawResult}
    (h : processSubdomain opts o c = some raw) : raw.subdomain = c := by
  unfold processSubdomain at h
  split at h
  · cases h
  · cases h; rfl

theorem processSubdomain_isNone (opts : ScanOptions) (o : Str → CandOracle)
    (c : Str) :
    (processSubdomain opts o c).isNone =
      ((resolveDNS (o c).dns).ips.isEmpty &&
        !(strTruthy (resolveDNS (o c).dns).cname)) := by
  unfold processSubdomain
  by_cases h : ((resolveDNS (o c).dns).ips.isEmpty &&
      !(strTruthy (resolveDNS (o c).dns).cname)) = true
  · simp [h]
  · simp only [Bool.not_eq_true] at h
    simp [h]

theorem length_filterMap_sub {α β : Type} (f : α → Option β) :
    ∀ l : List α, (l.filterMap f).length =
      l.length - l.countP (fun a => (f a).isNone) := by
  intro l
  induction l with
  | nil => rfl
  | cons a t ih =>
    have hle := List.countP_le_length (fun x => (f x).isNone) (l := t)
    cases hf : f a with
    | none =>
      simp [List.filterMap_cons, List.countP_cons, hf, ih]
    | some b =>
      simp [List.filterMap_cons, List.countP_cons, hf, ih]
      omega

theorem isValidDomain_invalid_has_error (d : Str)
    (h : (isValidDomain d).valid = false) :
    (isValidDomain d).error ≠ none := by
  unfold isValidDomain at h ⊢
  split_ifs at h ⊢ <;> simp_all

theorem runScan_valid (req : ScanRequest) (ct : Option (List CertEntry))
    (o : Str → CandOracle) (h : (isValidDomain req.domain).valid = true) :
    runScan req ct o = scanHappy req ct o := by
  unfold runScan
  rw [h]
  simp

theorem scanHappy_records (req : ScanRequest) (ct : Option (List CertEntry))
    (o : Str → CandOracle) :
    (scanHappy req ct o).records =
      ((discoveredCandidates req ct).filterMap
        (processSubdomain req.options o)).map (toRecord req.scanId) := rfl

theorem discoveredCandidates_cases {req : ScanRequest}
    {ct : Option (List CertEntry)} {c : Str}
    (h : c ∈ discoveredCandidates req ct) :
    c ∈ queryCTLogs ct req.domain ∨
    c ∈ wordlistCandidates req.domain ∨
    c ∈ permutationCandidates req.domain := by
  have h1 := mem_dedupStrs h
  rcases List.mem_append.mp h1 with h2 | h2
  · rcases List.mem_append.mp h2 with h3 | h3
    · rcases h4 : optEnabled req.options.ctLogs with _ | _
      · rw [h4] at h3; simp at h3
      · rw [h4] at h3; simp at h3; exact Or.inl h3
    · rcases h4 : optEnabled req.options.dnsBruteforce with _ | _
      · rw [h4] at h3; simp at h3
      · rw [h4] at h3; simp at h3; exact Or.inr (Or.inl h3)
  · exact Or.inr (Or.inr h2)

/-! ### Claim theorems -/

/-- Claim C2 as stated is false on the code: the string `"a.-b.com"`
violates the claimed RFC-1035-style grammar (its second label starts with
a hyphen), yet `isValidDomain` accepts it, because `DOMAIN_REGEX` enforces
the edge-hyphen restriction only on the first label. -/
theorem C2_counterexample :
    rfc1035ClaimGrammar ("a.-b.com".toList) = false ∧
    isValidDomain ("a.-b.com".toList) = ⟨true, none⟩ := by
  constructor <;> decide

/-- Claim C2 (amended): `isValidDomain` rejects, with a nonempty reason,
every string that fails the label grammar actually implemented by
`DOMAIN_REGEX` — first label 1-63 alphanumeric-or-hyphen characters with
no leading or trailing hyphen, middle labels 1-63 such characters with
hyphens allowed anywhere, at least two labels, final label alphabetic of
length at least 2 (with no upper length bound). -/
theorem C2_amended_reject_bad_grammar (s : Str)
    (h : domainRegexMatch s = false) :
    (isValidDomain s).valid = false ∧
    (isValidDomain s).error ≠ none ∧ (isValidDomain s).error ≠ some "" := by
  unfold isValidDomain
  split_ifs with h1 h2 h3 h4 h5 h6 <;>
    first
      | exact ⟨rfl, by simp, by simp⟩
      | (exact absurd (by simp [h] : (!domainRegexMatch s) = true) h5)

/-- Witness for `C2_amended_reject_bad_grammar` at the concrete input
`"a.-b"` (its final label is not alphabetic of length two or more). -/
theorem C2_amended_witness :
    domainRegexMatch ("a.-b".toList) = false ∧
    (isValidDomain ("a.-b".toList)).valid = false :=
  ⟨by decide, (C2_amended_reject_bad_grammar ("a.-b".toList) (by decide)).1⟩

/-- Claim C3: `calculateRiskScore` is a deterministic pure function of its
input; on the record with `isAnomaly`, `takeoverVulnerable`,
`takeoverVerified` true, `httpStatus = 200`, `httpsStatus = null`,
`cloudProvider = "aws"`, no server, no technologies and no exposed ports it
returns exactly 95; and every result is bounded by 100 (as a natural
number it is also at least 0). -/
theorem C3_riskScore_deterministic_bounded :
    (∀ d₁ d₂ : RiskInput, d₁ = d₂ →
      calculateRiskScore d₁ = calculateRiskScore d₂) ∧
    calculateRiskScore
      ⟨true, true, true, some 200, none, some ("aws".toList), none, [], []⟩ = 95 ∧
    (∀ d : RiskInput, calculateRiskScore d ≤ 100) := by
  refine ⟨fun d₁ d₂ h => by rw [h], by decide, fun d => ?_⟩
  unfold calculateRiskScore
  exact Nat.min_le_right _ 100

/-- Witness for `C3_riskScore_deterministic_bounded` at concrete inputs. -/
theorem C3_witness :
    calculateRiskScore ⟨false, false, false, none, none, none, none, [], []⟩ =
      calculateRiskScore ⟨false, false, false, none, none, none, none, [], []⟩ ∧
    calculateRiskScore
      ⟨true, true, true, some 200, none, some ("aws".toList), none, [], []⟩ = 95 ∧
    calculateRiskScore ⟨false, false, false, none, none, none, none, [], []⟩ ≤ 100 :=
  ⟨C3_riskScore_deterministic_bounded.1 _ _ rfl,
   C3_riskScore_deterministic_bounded.2.1,
   C3_riskScore_deterministic_bounded.2.2 _⟩

/-- Claim C4: a `null` CNAME yields no vulnerability; a CNAME matching the
Heroku fingerprint yields `vulnerable = true` with type `"Heroku"`; and
`verified = true` only when the retained body contains one of the matched
service's error signatures or the matched service is GitHub Pages with an
HTTP or HTTPS 404. -/
theorem C4_takeover_fingerprints :
    (∀ (body : Option Str) (hs hss : Option Int),
      checkTakeoverVulnerability none body hs hss = ⟨false, none, false⟩) ∧
    (∀ (body : Option Str) (hs hss : Option Int),
      (checkTakeoverVulnerability (some ("myapp.herokuapp.com".toList))
        body hs hss).vulnerable = true ∧
      (checkTakeoverVulnerability (some ("myapp.herokuapp.com".toList))
        body hs hss).takeType = some ("Heroku".toList)) ∧
    (∀ (cname body : Option Str) (hs hss : Option Int),
      (checkTakeoverVulnerability cname body hs hss).verified = true →
      ∃ fp ∈ TAKEOVER_FINGERPRINTS,
        (checkTakeoverVulnerability cname body hs hss).takeType =
          some fp.serviceType ∧
        ((∃ b, body = some b ∧
            fp.errorSignatures.any (fun sig => strContainsSub b sig) = true) ∨
         (fp.serviceType = "GitHub Pages".toList ∧
            (hs = some 404 ∨ hss = some 404)))) := by
  refine ⟨fun body hs hss => rfl, fun body hs hss => ⟨rfl, rfl⟩, ?_⟩
  intro cname body hs hss h
  cases cname with
  | none => simp [checkTakeoverVulnerability] at h
  | some c =>
    simp only [checkTakeoverVulnerability] at h ⊢
    by_cases hc : c.isEmpty = true
    · rw [if_pos hc] at h; simp at h
    · rw [if_neg hc] at h ⊢
      exact takeoverGo_verified_spec c body hs hss TAKEOVER_FINGERPRINTS h

/-- Witness for `C4_takeover_fingerprints`: a Heroku CNAME whose body
contains the `no-such-app` signature is reported verified for a service of
the fingerprint table. -/
theorem C4_witness :
    checkTakeoverVulnerability none none none none = ⟨false, none, false⟩ ∧
    (checkTakeoverVulnerability (some ("myapp.herokuapp.com".toList))
      none none none).vulnerable = true ∧
    ∃ fp ∈ TAKEOVER_FINGERPRINTS,
      (checkTakeoverVulnerability (some ("myapp.herokuapp.com".toList))
        (some ("no-such-app".toList)) none none).takeType =
        some fp.serviceType ∧
      ((∃ b, (some ("no-such-app".toList) : Option Str) = some b ∧
          fp.errorSignatures.any (fun sig => strContainsSub b sig) = true) ∨
       (fp.serviceType = "GitHub Pages".toList ∧
          ((none : Option Int) = some 404 ∨ (none : Option Int) = some 404))) :=
  ⟨C4_takeover_fingerprints.1 none none none,
   (C4_takeover_fingerprints.2.1 none none none).1,
   C4_takeover_fingerprints.2.2 _ _ _ _ (by decide)⟩

/-- Claim C5: `checkHTTP` attempts HTTPS first — any HTTPS response, of any
status, is recorded and ends the probe with `httpStatus = null`; the HTTP
request is attempted only when the HTTPS fetch itself throws; and whenever
an HTTPS status is recorded, `httpStatus` is `null`. -/
theorem C5_https_first_http_fallback :
    (∀ (net : NetworkState) (resp : HttpResponse), net.https = some resp →
      (checkHTTP net).httpsStatus = some resp.status ∧
      (checkHTTP net).httpStatus = none) ∧
    (∀ (net : NetworkState) (resp : HttpResponse), net.https = none →
      net.http = some resp → (checkHTTP net).httpStatus = some resp.status) ∧
    (∀ net : NetworkState, (checkHTTP net).httpsStatus.isSome = true →
      (checkHTTP net).httpStatus = none) := by
  refine ⟨?_, ?_, ?_⟩
  · rintro ⟨https, http⟩ resp h
    cases h
    exact ⟨rfl, rfl⟩
  · rintro ⟨https, http⟩ resp h h'
    cases h
    cases h'
    rfl
  · rintro ⟨https, http⟩ h
    cases https with
    | some resp => rfl
    | none =>
      cases http with
      | some resp => simp [checkHTTP] at h
      | none => rfl

/-- Witness for `C5_https_first_http_fallback` at concrete network states:
an HTTPS 503 response is recorded without falling back to HTTP, and a
thrown HTTPS fetch falls back to the HTTP response. -/
theorem C5_witness :
    ((checkHTTP ⟨some ⟨503, [], none⟩, some ⟨200, [], none⟩⟩).httpsStatus =
        some 503 ∧
      (checkHTTP ⟨some ⟨503, [], none⟩, some ⟨200, [], none⟩⟩).httpStatus =
        none) ∧
    (checkHTTP ⟨none, some ⟨200, [], none⟩⟩).httpStatus = some 200 ∧
    (checkHTTP ⟨some ⟨503, [], none⟩, some ⟨200, [], none⟩⟩).httpStatus = none :=
  ⟨C5_https_first_http_fallback.1 ⟨some ⟨503, [], none⟩, some ⟨200, [], none⟩⟩
      ⟨503, [], none⟩ rfl,
   C5_https_first_http_fallback.2.1 ⟨none, some ⟨200, [], none⟩⟩
      ⟨200, [], none⟩ rfl rfl,
   C5_https_first_http_fallback.2.2
      ⟨some ⟨503, [], none⟩, some ⟨200, [], none⟩⟩ rfl⟩

/-- Claim C6 as stated is false on the code: `detectAnomaly` matches the
anomaly tokens against the whole candidate name, not only its bare
subdomain prefix.  For the candidate `"www.devsite.com"` of apex domain
`"devsite.com"`, the bare name `"www"` contains no anomaly token, yet the
candidate is flagged because `"dev"` occurs inside the apex part. -/
theorem C6_counterexample :
    bareNameAnomalous ("www".toList) = false ∧
    (detectAnomaly ("www.devsite.com".toList)).isAnomaly = true := by
  constructor <;> decide

/-- Claim C6 (amended): `detectAnomaly` performs a case-insensitive match
of the whole candidate name (apex part included) against the fixed token
list; the first matching pattern wins and its literal source is surfaced in
the reason string; with no match it returns `isAnomaly = false` and
`reason = null`; in particular `"www.example.com"` is not flagged and
`"BACKUP.example.com"` is. -/
theorem C6_amended_full_name_match :
    (∀ s : Str,
      ANOMALY_PATTERNS.find? (fun p => strContainsSub (toLowerStr s) p) = none →
      detectAnomaly s = ⟨false, none⟩) ∧
    (∀ (s p : Str),
      ANOMALY_PATTERNS.find? (fun pat => strContainsSub (toLowerStr s) pat) =
        some p →
      detectAnomaly s = ⟨true, some ("Suspicious pattern: ".toList ++ p)⟩) ∧
    detectAnomaly ("www.example.com".toList) = ⟨false, none⟩ ∧
    (detectAnomaly ("BACKUP.example.com".toList)).isAnomaly = true := by
  refine ⟨?_, ?_, by decide, by decide⟩
  · intro s h
    rw [detectAnomaly, detectAnomalyGo_eq_find, h]
  · intro s p h
    rw [detectAnomaly, detectAnomalyGo_eq_find, h]

/-- Witness for `C6_amended_full_name_match` at concrete inputs. -/
theorem C6_amended_witness :
    detectAnomaly ("api.example.com".toList) = ⟨false, none⟩ ∧
    detectAnomaly ("backup.example.com".toList) =
      ⟨true, some ("Suspicious pattern: backup".toList)⟩ :=
  ⟨C6_amended_full_name_match.1 ("api.example.com".toList) (by decide),
   C6_amended_full_name_match.2.1 ("backup.example.com".toList)
     ("backup".toList) (by decide)⟩

/-- Claim C9: in the limiter transition system modelling `createLimiter`,
every state reachable from the initial state has at most
`MAX_CONCURRENT = 10` running tasks, and the only step that increases the
running count (admission of a waiter) requires the count to be strictly
below the bound beforehand. -/
theorem C9_concurrency_bound :
    (∀ s : LimiterState, LimReachable MAX_CONCURRENT s →
      s.running ≤ MAX_CONCURRENT) ∧
    (∀ s s' : LimiterState, LimStep MAX_CONCURRENT s s' →
      s.running < s'.running → s.running < MAX_CONCURRENT) := by
  constructor
  · intro s h
    induction h with
    | init => exact Nat.zero_le _
    | step hr hstep ih =>
      cases hstep with
      | submit => exact ih
      | enter hrun hw => exact hrun
      | finish hrun => exact le_trans (Nat.sub_le _ _) ih
  · intro s s' hstep hlt
    cases hstep with
    | submit => exact absurd hlt (lt_irrefl _)
    | enter hrun hw => exact hrun
    | finish hrun =>
      exact absurd hlt (show ¬s.running < s.running - 1 by omega)

/-- Witness for `C9_concurrency_bound`: the initial state is reachable and
within the bound, and an admission step from it satisfies the guard. -/
theorem C9_witness :
    (⟨0, 0⟩ : LimiterState).running ≤ MAX_CONCURRENT ∧
    (⟨1, 0⟩ : LimiterState).running < MAX_CONCURRENT :=
  ⟨C9_concurrency_bound.1 ⟨0, 0⟩ LimReachable.init,
   C9_concurrency_bound.2 ⟨1, 0⟩ ⟨0, 1⟩
     (LimStep.enter ⟨1, 0⟩ (by decide) (by decide)) (by decide)⟩

/-- Claim C10: `checkTakeoverVulnerability` never returns `verified = true`
together with `vulnerable = false` — verification is only ever set after a
fingerprint pattern has matched. -/
theorem C10_verified_implies_vulnerable (cname responseBody : Option Str)
    (httpStatus httpsStatus : Option Int)
    (h : (checkTakeoverVulnerability cname responseBody httpStatus
            httpsStatus).verified = true) :
    (checkTakeoverVulnerability cname responseBody httpStatus
      httpsStatus).vulnerable = true := by
  cases cname with
  | none => simp [checkTakeoverVulnerability] at h
  | some c =>
    simp only [checkTakeoverVulnerability] at h ⊢
    by_cases hc : c.isEmpty = true
    · rw [if_pos hc] at h; simp at h
    · rw [if_neg hc] at h ⊢
      exact takeoverGo_verified_vulnerable c responseBody httpStatus
        httpsStatus TAKEOVER_FINGERPRINTS h

/-- Witness for `C10_verified_implies_vulnerable`: a verified Heroku
takeover is also reported vulnerable. -/
theorem C10_witness :
    (checkTakeoverVulnerability (some ("myapp.herokuapp.com".toList))
      (some ("no-such-app".toList)) none none).verified = true ∧
    (checkTakeoverVulnerability (some ("myapp.herokuapp.com".toList))
      (some ("no-such-app".toList)) none none).vulnerable = true :=
  ⟨by decide,
   C10_verified_implies_vulnerable (some ("myapp.herokuapp.com".toList))
     (some ("no-such-app".toList)) none none (by decide)⟩

set_option maxRecDepth 100000 in
/-- Claim C1 as stated is false on the code: with target `example.com` and
a CT certificate naming `evilexample.com`, the pipeline keeps the name —
the `queryCTLogs` filter checks only a plain string suffix — and the
completed scan emits a SubdomainRecord whose name does not end with
`.example.com`. -/
theorem C1_counterexample :
    (runScan c1Request c1CT c1Oracle).records.map (fun r => r.name) =
      ["evilexample.com".toList] ∧
    strEndsWith ("evilexample.com".toList) ('.' :: "example.com".toList) =
      false := by
  constructor <;> decide

/-- Claim C1 (amended): every SubdomainRecord emitted by a completed scan
has a name that either ends with `.` followed by the target domain (all
wordlist and permutation candidates), or — for names kept from the
certificate-transparency source — ends with the lower-cased target domain
as a plain string suffix and differs from it, with no dot separator
guaranteed. -/
theorem C1_amended_record_name_suffix (req : ScanRequest)
    (ct : Option (List CertEntry)) (o : Str → CandOracle)
    (h : (isValidDomain req.domain).valid = true) :
    ∀ r ∈ (runScan req ct o).records,
      strEndsWith r.name ('.' :: req.domain) = true ∨
      (strEndsWith r.name (toLowerStr req.domain) = true ∧
        r.name ≠ toLowerStr req.domain) := by
  intro r hr
  rw [runScan_valid req ct o h, scanHappy_records] at hr
  obtain ⟨raw, hraw, hrec⟩ := List.mem_map.mp hr
  obtain ⟨c, hc, hproc⟩ := List.mem_filterMap.mp hraw
  have hname : r.name = c := by
    rw [← hrec]
    show raw.subdomain = c
    exact processSubdomain_name hproc
  rw [hname]
  rcases discoveredCandidates_cases hc with h1 | h1 | h1
  · exact Or.inr (queryCTLogs_mem h1)
  · exact Or.inl (wordlistCandidates_mem h1)
  · exact Or.inl (permutationCandidates_mem h1)

set_option maxRecDepth 100000 in
/-- Witness for `C1_amended_record_name_suffix`: the record emitted for
the CT-sourced name in the concrete scenario satisfies the (amended)
suffix disjunction. -/
theorem C1_amended_witness :
    ((isValidDomain c1Request.domain).valid = true ∧
      c1Record ∈ (runScan c1Request c1CT c1Oracle).records) ∧
    (strEndsWith c1Record.name ('.' :: c1Request.domain) = true ∨
      (strEndsWith c1Record.name (toLowerStr c1Request.domain) = true ∧
        c1Record.name ≠ toLowerStr c1Request.domain)) :=
  ⟨⟨by decide, by decide⟩,
   C1_amended_record_name_suffix c1Request c1CT c1Oracle (by decide)
     c1Record (by decide)⟩

/-- Claim C7: in a completed scan over a deduplicated candidate set of
size N, in which exactly M candidates yield neither a public IP address
nor a CNAME, the final record set has exactly N − M records, and the
reported total equals that record count. -/
theorem C7_record_count (req : ScanRequest) (ct : Option (List CertEntry))
    (o : Str → CandOracle) (h : (isValidDomain req.domain).valid = true) :
    (runScan req ct o).records.length =
      (discoveredCandidates req ct).length -
        (discoveredCandidates req ct).countP
          (fun c => (resolveDNS (o c).dns).ips.isEmpty &&
            !(strTruthy (resolveDNS (o c).dns).cname)) ∧
    ∃ st, (runScan req ct o).stats = some st ∧
      st.total = (runScan req ct o).records.length := by
  rw [runScan_valid req ct o h]
  constructor
  · rw [scanHappy_records, List.length_map, length_filterMap_sub]
    congr 1
    refine List.countP_congr (fun c _ => ?_)
    simp [processSubdomain_isNone req.options o c]
  · exact ⟨_, rfl, rfl⟩

set_option maxRecDepth 100000 in
/-- Witness for `C7_record_count`: a scan in which every candidate lacks
DNS records produces the claimed counts. -/
theorem C7_witness :
    (isValidDomain c7Request.domain).valid = true ∧
    ((runScan c7Request none c7Oracle).records.length =
        (discoveredCandidates c7Request none).length -
          (discoveredCandidates c7Request none).countP
            (fun c => (resolveDNS (c7Oracle c).dns).ips.isEmpty &&
              !(strTruthy (resolveDNS (c7Oracle c).dns).cname)) ∧
      ∃ st, (runScan c7Request none c7Oracle).stats = some st ∧
        st.total = (runScan c7Request none c7Oracle).records.length) :=
  ⟨by decide, C7_record_count c7Request none c7Oracle (by decide)⟩

/-- Claim C8: when the target domain fails validation, the handler
returns a 400 error response with a reason, and performs no external work
at all — no scan-state transition, no CT query, no DNS resolution, no
probe and no persisted record (its external trace is empty). -/
theorem C8_validation_failure_fatal (req : ScanRequest)
    (ct : Option (List CertEntry)) (o : Str → CandOracle)
    (h : (isValidDomain req.domain).valid = false) :
    runScan req ct o =
      ⟨400, (isValidDomain req.domain).error, none, [], []⟩ ∧
    (isValidDomain req.domain).error ≠ none := by
  constructor
  · unfold runScan
    rw [h]
    simp
  · exact isValidDomain_invalid_has_error req.domain h

/-- Witness for `C8_validation_failure_fatal`: scanning the literal IP
`192.168.1.1` is rejected with an empty external trace. -/
theorem C8_witness :
    (isValidDomain c8Request.domain).valid = false ∧
    (runScan c8Request none c8Oracle =
        ⟨400, (isValidDomain c8Request.domain).error, none, [], []⟩ ∧
      (isValidDomain c8Request.domain).error ≠ none) :=
  ⟨by decide, C8_validation_failure_fatal c8Request none c8Oracle (by decide)⟩
